import Mathlib

/-!
Verification development for the BIMS payment-webhook repository
(`api/create-preference.js`, `api/webhook.js`, the create-subscription
handler and the Netlify webhook handler variant).

The JavaScript sources are shallowly embedded below:
pure computations become Lean functions, the Firebase Realtime Database and
Firebase Auth become an explicit `World` state threaded through the handlers,
and every external call (MercadoPago fetches, the HTTP request) becomes an
explicit input.  JavaScript numbers used for money amounts are modelled as
`Rat`; timestamps are modelled by a calendar-date structure `JDate` with the
semantics of the JavaScript `Date` operations actually used by the code
(`new Date(iso)`, comparison, `setMonth`, `toISOString` round-trips).
-/

set_option maxRecDepth 4096

namespace Bims

/-! ### JavaScript-style helpers

`jsOrS o d` models the JavaScript expression `o || d` for string-valued `o`
(`undefined`/`null` is `none`; the empty string is falsy). -/

def jsOrS (o : Option String) (d : String) : String :=
  match o with
  | some s => if s = "" then d else s
  | none => d

/-- `jsOptS` models `s || null` used when storing optional string fields:
an absent or empty string becomes `null`. -/
def jsOptS (o : Option String) : Option String :=
  match o with
  | some s => if s = "" then none else some s
  | none => none

/-! ### Date model

`JDate` models a JavaScript `Date` by its calendar components
(`month` is 0-based as in JS; `msOfDay` is the time of day in milliseconds).
Comparison of `Date` objects compares epoch milliseconds, which for calendar
components in their normal ranges is exactly the lexicographic order `dLt`.
-/

structure JDate where
  year : Int
  month : Nat
  day : Nat
  msOfDay : Nat
deriving DecidableEq, Repr

/-- Epoch order on dates: `dLt a b` iff `a` is strictly earlier than `b`. -/
def dLt (a b : JDate) : Bool :=
  if a.year < b.year then true
  else if b.year < a.year then false
  else if a.month < b.month then true
  else if b.month < a.month then false
  else if a.day < b.day then true
  else if b.day < a.day then false
  else decide (a.msOfDay < b.msOfDay)

def isLeap (y : Int) : Bool :=
  y % 4 = 0 && (y % 100 != 0 || y % 400 = 0)

/-- Number of days of month `m` (0-based, JS convention) of year `y`. -/
def daysInMonth (y : Int) (m : Nat) : Nat :=
  if m = 1 then (if isLeap y then 29 else 28)
  else if m = 3 || m = 5 || m = 8 || m = 10 then 30
  else 31

/-- `addMonths d n` models `d.setMonth(d.getMonth() + n)` on a JavaScript
`Date`: the month index is incremented with year carry, and a day-of-month
overflow rolls into the following month (raw month increment, no clamping to
the end of the month — e.g. Jan 31 + 1 month = Mar 3 in a non-leap year). -/
def addMonths (d : JDate) (n : Nat) : JDate :=
  let t : Int := d.year * 12 + d.month + n
  let y : Int := t.ediv 12
  let m : Nat := (t.emod 12).toNat
  let dim := daysInMonth y m
  if dim < d.day then
    if m = 11 then ⟨y + 1, 0, d.day - dim, d.msOfDay⟩
    else ⟨y, m + 1, d.day - dim, d.msOfDay⟩
  else ⟨y, m, d.day, d.msOfDay⟩

/-! ### Byte-level crypto: SHA-256 and HMAC-SHA256

Executable model of `crypto.createHmac('sha256', secret).update(m).digest('hex')`
used by `verifySignature`.  Bytes are `Nat`s below 256, 32-bit words are
`Nat`s reduced mod `2^32`. -/

def w32 (n : Nat) : Nat := n % 4294967296

def wadd (a b : Nat) : Nat := (a + b) % 4294967296

def rotr (n x : Nat) : Nat := w32 ((x >>> n) ||| (x <<< (32 - n)))

def bigSigma0 (x : Nat) : Nat := rotr 2 x ^^^ rotr 13 x ^^^ rotr 22 x

def bigSigma1 (x : Nat) : Nat := rotr 6 x ^^^ rotr 11 x ^^^ rotr 25 x

def smallSigma0 (x : Nat) : Nat := rotr 7 x ^^^ rotr 18 x ^^^ (x >>> 3)

def smallSigma1 (x : Nat) : Nat := rotr 17 x ^^^ rotr 19 x ^^^ (x >>> 10)

def chF (x y z : Nat) : Nat := (x &&& y) ^^^ ((x ^^^ 4294967295) &&& z)

def majF (x y z : Nat) : Nat := (x &&& y) ^^^ (x &&& z) ^^^ (y &&& z)

def sha256K : List Nat :=
  [1116352408, 1899447441, 3049323471, 3921009573, 961987163,
   1508970993, 2453635748, 2870763221, 3624381080, 310598401,
   607225278, 1426881987, 1925078388, 2162078206, 2614888103,
   3248222580, 3835390401, 4022224774, 264347078, 604807628,
   770255983, 1249150122, 1555081692, 1996064986, 2554220882,
   2821834349, 2952996808, 3210313671, 3336571891, 3584528711,
   113926993, 338241895, 666307205, 773529912, 1294757372,
   1396182291, 1695183700, 1986661051, 2177026350, 2456956037,
   2730485921, 2820302411, 3259730800, 3345764771, 3516065817,
   3600352804, 4094571909, 275423344, 430227734, 506948616,
   659060556, 883997877, 958139571, 1322822218, 1537002063,
   1747873779, 1955562222, 2024104815, 2227730452, 2361852424,
   2428436474, 2756734187, 3204031479, 3329325298]

def sha256H0 : List Nat :=
  [1779033703, 3144134277, 1013904242, 2773480762, 1359893119,
   2600822924, 528734635, 1541459225]

/-- Big-endian 8-byte encoding of the bit length. -/
def be64 (n : Nat) : List Nat :=
  [(n >>> 56) % 256, (n >>> 48) % 256, (n >>> 40) % 256, (n >>> 32) % 256,
   (n >>> 24) % 256, (n >>> 16) % 256, (n >>> 8) % 256, n % 256]

/-- SHA-256 padding: append `0x80`, zeros and the 64-bit message bit length,
reaching a multiple of 64 bytes. -/
def padMessage (ms : List Nat) : List Nat :=
  let L := ms.length
  let k := (119 - L % 64) % 64
  ms ++ 128 :: List.replicate k 0 ++ be64 (8 * L)

/-- Split a byte list into 64-byte blocks (fuel-driven, structurally
terminating; the fuel `ms.length` always suffices). -/
def toBlocksAux : Nat → List Nat → List (List Nat)
  | 0, _ => []
  | _, [] => []
  | Nat.succ f, ms => ms.take 64 :: toBlocksAux f (ms.drop 64)

def toBlocks (ms : List Nat) : List (List Nat) := toBlocksAux ms.length ms

/-- Group 4 big-endian bytes into one 32-bit word. -/
def bytesToWords : List Nat → List Nat
  | a :: b :: c :: d :: rest => (a * 16777216 + b * 65536 + c * 256 + d) :: bytesToWords rest
  | _ => []

/-- Extend the 16 block words to the 64-entry message schedule. -/
def extendW (ws : List Nat) : List Nat :=
  (List.range 48).foldl
    (fun acc _ =>
      let n := acc.length
      acc ++ [wadd (wadd (smallSigma1 (acc.getD (n - 2) 0)) (acc.getD (n - 7) 0))
                   (wadd (smallSigma0 (acc.getD (n - 15) 0)) (acc.getD (n - 16) 0))])
    ws

/-- One round of the SHA-256 compression function; the state is the list
`[a, b, c, d, e, f, g, h]`. -/
def compressStep (st : List Nat) (kw : Nat × Nat) : List Nat :=
  let a := st.getD 0 0
  let b := st.getD 1 0
  let c := st.getD 2 0
  let d := st.getD 3 0
  let e := st.getD 4 0
  let f := st.getD 5 0
  let g := st.getD 6 0
  let h := st.getD 7 0
  let t1 := wadd (wadd (wadd h (bigSigma1 e)) (wadd (chF e f g) kw.1)) kw.2
  let t2 := wadd (bigSigma0 a) (majF a b c)
  [wadd t1 t2, a, b, c, wadd d t1, e, f, g]

def compress (h : List Nat) (block : List Nat) : List Nat :=
  let ws := extendW (bytesToWords block)
  let fin := (List.zip sha256K ws).foldl compressStep h
  List.zipWith wadd h fin

/-- SHA-256 of a byte list, as a 32-byte list. -/
def sha256 (ms : List Nat) : List Nat :=
  let hs := (toBlocks (padMessage ms)).foldl compress sha256H0
  hs.foldr (fun w acc => (w >>> 24) % 256 :: (w >>> 16) % 256 :: (w >>> 8) % 256 :: w % 256 :: acc) []

/-- HMAC-SHA256 over byte lists (block size 64). -/
def hmacSHA256 (key msg : List Nat) : List Nat :=
  let k0 := if 64 < key.length then sha256 key else key
  let kp := k0 ++ List.replicate (64 - k0.length) 0
  sha256 ((kp.map (fun b => b ^^^ 0x5c)) ++ sha256 ((kp.map (fun b => b ^^^ 0x36)) ++ msg))

/-- UTF-8 encoding of one character. -/
def utf8Char (c : Char) : List Nat :=
  let n := c.toNat
  if n < 128 then [n]
  else if n < 2048 then [192 + n / 64, 128 + n % 64]
  else if n < 65536 then [224 + n / 4096, 128 + (n / 64) % 64, 128 + n % 64]
  else [240 + n / 262144, 128 + (n / 4096) % 64, 128 + (n / 64) % 64, 128 + n % 64]

/-- UTF-8 encoding of a string, as `crypto.update` applies to string input. -/
def utf8 (s : String) : List Nat :=
  s.data.foldr (fun c acc => utf8Char c ++ acc) []

/-- Lowercase hex digit. -/
def hexDigit (n : Nat) : Char :=
  if n < 10 then Char.ofNat (48 + n) else Char.ofNat (87 + n)

/-- Lowercase hex encoding, as `digest('hex')` produces. -/
def toHex (bs : List Nat) : String :=
  String.mk (bs.foldr (fun b acc => hexDigit (b / 16) :: hexDigit (b % 16) :: acc) [])

/-- `crypto.createHmac('sha256', secret).update(msg).digest('hex')` with both
arguments given as byte lists. -/
def hmacHex (key msg : List Nat) : String := toHex (hmacSHA256 key msg)

/-- Value of one hex digit; `none` on a non-hex character. -/
def hexVal (c : Char) : Option Nat :=
  let n := c.toNat
  if 48 ≤ n && n ≤ 57 then some (n - 48)
  else if 97 ≤ n && n ≤ 102 then some (n - 87)
  else if 65 ≤ n && n ≤ 70 then some (n - 55)
  else none

/-- `Buffer.from(s, 'hex')`: decode hex digit pairs, stopping at the first
invalid pair and dropping a trailing odd digit. -/
def decodeHexAux : List Char → List Nat
  | a :: b :: rest =>
    match hexVal a, hexVal b with
    | some x, some y => (16 * x + y) :: decodeHexAux rest
    | _, _ => []
  | _ => []

def decodeHex (s : String) : List Nat := decodeHexAux s.data

/-! ### Signature verification (`verifySignature`, webhook.js 320-344 /
part_001 212-230) -/

/-- JavaScript `\s` (whitespace class) membership, used by `trim`. -/
def isJsSpace (c : Char) : Bool :=
  c = ' ' || c = '\t' || c = '\n' || c = '\r' || c.toNat = 11 || c.toNat = 12 ||
  c.toNat = 160 || c.toNat = 0x1680 || (0x2000 ≤ c.toNat && c.toNat ≤ 0x200a) ||
  c.toNat = 0x2028 || c.toNat = 0x2029 || c.toNat = 0x202f || c.toNat = 0x205f ||
  c.toNat = 0x3000 || c.toNat = 0xfeff

/-- `String.prototype.trim`. -/
def jsTrim (cs : List Char) : List Char :=
  ((cs.dropWhile isJsSpace).reverse.dropWhile isJsSpace).reverse

/-- `String.prototype.split(sep)` for a one-character separator
(`"".split(sep)` is `[""]`, like in JavaScript). -/
def splitCh (sep : Char) : List Char → List (List Char)
  | [] => [[]]
  | c :: t =>
    let r := splitCh sep t
    if c = sep then [] :: r
    else
      match r with
      | h :: t2 => (c :: h) :: t2
      | [] => [[c]]

/-- `Object.fromEntries(xSignature.split(',').map(p => p.trim().split('=')))`:
the list of `(key, value?)` pairs (a part without `=` has no value, extra
`=`-separated fields are dropped, as `fromEntries` keeps entry `[0]`/`[1]`). -/
def parsePairs (s : String) : List (String × Option String) :=
  (splitCh ',' s.data).map fun p =>
    let q := splitCh '=' (jsTrim p)
    (String.mk (q.headD []), (q.get? 1).map String.mk)

/-- Lookup in the object built by `Object.fromEntries`: the last entry with
the key wins. -/
def lookupLast (ps : List (String × Option String)) (k : String) : Option String :=
  ps.foldl (fun acc p => if p.1 = k then p.2 else acc) none

/-- The parts of an inbound webhook request that `verifySignature` reads. -/
structure SigEvent where
  xSignature : String
  xRequestId : String
  dataId : Option String
  queryId : Option String
deriving DecidableEq

/-- `body.data?.id || query.id || ''`. -/
def eventId (e : SigEvent) : String := jsOrS e.dataId (jsOrS e.queryId "")

/-- `verifySignature(req, secret)`.  `crypto.timingSafeEqual` throws on
length mismatch, which the surrounding `try` turns into `false`; on equal
lengths it is byte equality. -/
def verifySignature (e : SigEvent) (secret : String) : Bool :=
  if e.xSignature = "" then true
  else
    let ps := parsePairs e.xSignature
    let ts := jsOrS (lookupLast ps "ts") ""
    let hash := jsOrS (lookupLast ps "v1") ""
    let manifest := "id:" ++ eventId e ++ ";request-id:" ++ e.xRequestId ++ ";ts:" ++ ts ++ ";"
    let expected := hmacHex (utf8 secret) (utf8 manifest)
    let a := decodeHex hash
    let b := decodeHex expected
    if a.length = b.length then a == b else false

/-- The handler-level gate: `if (process.env.MP_WEBHOOK_SECRET) { if
(!verifySignature(...)) return; }` — an unset or empty secret (modelled as
`""`) disables verification entirely. -/
def signatureAccepted (secret : String) (e : SigEvent) : Bool :=
  if secret = "" then true else verifySignature e secret

/-! ### Data model: the Firebase Realtime Database and Firebase Auth

`UserRecord` is the per-user record at `users/{uid}`; absent fields are
`none`.  `World` carries Firebase Auth (email → uid) and the database
(uid → record), both as association lists. -/

structure PaymentEntry where
  plan : String
  duration : Option String
  amount : Rat
  currency : String
  date : JDate
  type : String
deriving DecidableEq

structure SubscriptionRecord where
  preapprovalId : String
  plan : String
  status : String
  lastRenewal : JDate
  nextBilling : JDate
deriving DecidableEq

structure UserRecord where
  Email : Option String
  IsActive : Option Bool
  LicenseType : Option String
  ExpirationDate : Option JDate
  MaxDevices : Option Nat
  UpdatedAt : Option JDate
  CreatedAt : Option JDate
  ValidationCount : Option Nat
  activations : Option (List String)
  payments : List (String × PaymentEntry)
  subscription : Option SubscriptionRecord
deriving DecidableEq

def emptyRecord : UserRecord :=
  { Email := none, IsActive := none, LicenseType := none, ExpirationDate := none,
    MaxDevices := none, UpdatedAt := none, CreatedAt := none, ValidationCount := none,
    activations := none, payments := [], subscription := none }

structure World where
  auth : List (String × String)
  db : List (String × UserRecord)
deriving DecidableEq

/-- First-match association-list lookup. -/
def lookupS {α : Type} : List (String × α) → String → Option α
  | [], _ => none
  | (k, v) :: t, k' => if k = k' then some v else lookupS t k'

/-- Set a key in an association list (overwrite in place, append if new). -/
def setS {α : Type} : List (String × α) → String → α → List (String × α)
  | [], k, v => [(k, v)]
  | (k0, v0) :: t, k, v => if k0 = k then (k, v) :: t else (k0, v0) :: setS t k v

/-- The record at `users/{uid}` (an absent record reads as all-`null`). -/
def userRec (w : World) (uid : String) : UserRecord :=
  (lookupS w.db uid).getD emptyRecord

/-! ### License activation (`activateLicense`, webhook.js 194-283 /
part_001 128-188) -/

/-- The grant descriptor `info` passed to `activateLicense`. -/
structure GrantInfo where
  licenseType : String
  months : Nat
  maxDevices : Nat
  paymentId : Option String
  preapprovalId : Option String
  plan : String
  duration : Option String
  amount : Option Rat
  currency : Option String
  paymentType : String
deriving DecidableEq

/-- Step 1 of `activateLicense`: `auth.getUserByEmail` / `auth.createUser`.
Returns the uid and the `isNewUser` flag; `freshUid` is the uid Firebase
would assign to a newly created user. -/
def resolveUser (w : World) (freshUid email : String) : String × Bool :=
  match lookupS w.auth email with
  | some u => (u, false)
  | none => (freshUid, true)

/-- Step 2 of `activateLicense`: the extension base date.  `baseDate` starts
as `now` and is replaced by the stored expiration when one exists and is
strictly in the future. -/
def extensionBase (currentExp : Option JDate) (now : JDate) : JDate :=
  match currentExp with
  | some e => if dLt now e then e else now
  | none => now

/-- `activateLicense(email, info)` as a state transition on `World`.
`now` is the clock reading and `freshUid` the uid used if the user must be
created.  Field writes follow the source exactly: the `update` call merges
the six license fields (plus the new-user initialisation), the payment
history entry is `set` under `info.paymentId` when present, and the
`subscription` sub-record is `set` when `info.preapprovalId` is present. -/
def activateLicense (w : World) (now : JDate) (freshUid email : String) (info : GrantInfo) : World :=
  let ru := resolveUser w freshUid email
  let uid := ru.1
  let isNewUser := ru.2
  let auth1 := if isNewUser then setS w.auth email uid else w.auth
  let rec0 := userRec w uid
  let newExp := addMonths (extensionBase rec0.ExpirationDate now) info.months
  let rec1 : UserRecord :=
    { rec0 with Email := some email, IsActive := some true,
                LicenseType := some info.licenseType, ExpirationDate := some newExp,
                MaxDevices := some info.maxDevices, UpdatedAt := some now }
  let rec2 : UserRecord :=
    if isNewUser then
      { rec1 with CreatedAt := some now, ValidationCount := some 0, activations := some [] }
    else rec1
  let entry : PaymentEntry :=
    { plan := info.plan, duration := jsOptS info.duration,
      amount := info.amount.getD 0, currency := jsOrS info.currency "USD",
      date := now, type := info.paymentType }
  let rec3 : UserRecord :=
    match info.paymentId with
    | some pid => { rec2 with payments := setS rec2.payments pid entry }
    | none => rec2
  let subRec : SubscriptionRecord :=
    { preapprovalId := (info.preapprovalId).getD "", plan := info.plan,
      status := "authorized", lastRenewal := now, nextBilling := newExp }
  let rec4 : UserRecord :=
    match info.preapprovalId with
    | some _ => { rec3 with subscription := some subRec }
    | none => rec3
  { auth := auth1, db := setS w.db uid rec4 }

/-! ### Conversion tables and event handlers (webhook.js 48-191 /
part_001 25-125) -/

def DURATION_MONTHS (d : String) : Option Nat :=
  if d = "1m" then some 1 else if d = "3m" then some 3
  else if d = "6m" then some 6 else if d = "12m" then some 12 else none

def DURATION_LICENSE (d : String) : Option String :=
  if d = "1m" then some "Monthly" else if d = "3m" then some "Monthly"
  else if d = "6m" then some "Monthly" else if d = "12m" then some "Annual" else none

def PLAN_MAX_DEVICES (p : String) : Option Nat :=
  if p = "individual" then some 1 else if p = "profesional" then some 3 else none

/-- `DURATION_MONTHS[duration] || 1`. -/
def monthsOf (duration : String) : Nat := (DURATION_MONTHS duration).getD 1

/-- `DURATION_LICENSE[duration] || 'Monthly'`. -/
def licenseOf (duration : String) : String := (DURATION_LICENSE duration).getD "Monthly"

/-- `PLAN_MAX_DEVICES[plan] || 1`. -/
def devicesOf (plan : String) : Nat := (PLAN_MAX_DEVICES plan).getD 1

/-- The decoded `external_reference` payload `{e, p, d}`.  The source stores
it as a JSON string and runs `JSON.parse` under `try`; a parse failure or an
absent reference yields the empty object, modelled as all fields `none`. -/
structure ExtRef where
  e : Option String
  p : Option String
  d : Option String
deriving DecidableEq

/-- The payment object fetched from the processor by id. -/
structure PaymentObj where
  status : String
  reference : ExtRef
  transaction_amount : Option Rat
  currency_id : Option String
deriving DecidableEq

/-- `handlePayment(paymentId)` after the processor fetch resolved to
`payment` (a fetch that throws is caught by the handler and changes
nothing). -/
def handlePayment (w : World) (now : JDate) (freshUid paymentId : String)
    (payment : PaymentObj) : World :=
  if payment.status ≠ "approved" then w
  else
    let email := jsOrS payment.reference.e ""
    let plan := jsOrS payment.reference.p "individual"
    let duration := jsOrS payment.reference.d "1m"
    if email = "" then w
    else
      activateLicense w now freshUid email
        { licenseType := licenseOf duration, months := monthsOf duration,
          maxDevices := devicesOf plan, paymentId := some paymentId,
          preapprovalId := none, plan := plan, duration := some duration,
          amount := payment.transaction_amount, currency := payment.currency_id,
          paymentType := "onetime" }

structure AutoRecurring where
  transaction_amount : Option Rat
  currency_id : Option String
deriving DecidableEq

/-- The preapproval object fetched from the processor by id. -/
structure PreapprovalObj where
  status : String
  payer_email : Option String
  auto_recurring : Option AutoRecurring
deriving DecidableEq

/-- `presub.auto_recurring?.transaction_amount || 0`. -/
def subscriptionAmount (p : PreapprovalObj) : Rat :=
  match p.auto_recurring with
  | some r => r.transaction_amount.getD 0
  | none => 0

/-- `amount >= 25 ? 'profesional' : 'individual'`. -/
def inferPlan (amount : Rat) : String :=
  if 25 ≤ amount then "profesional" else "individual"

/-- `handleSubscription(preapprovalId)` after the processor fetch resolved
to `presub`. -/
def handleSubscription (w : World) (now : JDate) (freshUid preapprovalId : String)
    (presub : PreapprovalObj) : World :=
  if presub.status ≠ "authorized" then w
  else
    let email := jsOrS presub.payer_email ""
    if email = "" then w
    else
      let amount := subscriptionAmount presub
      let plan := inferPlan amount
      activateLicense w now freshUid email
        { licenseType := "Monthly", months := 1,
          maxDevices := (PLAN_MAX_DEVICES plan).getD 0, paymentId := none,
          preapprovalId := some preapprovalId, plan := plan, duration := none,
          amount := some amount,
          currency := some (jsOrS (presub.auto_recurring.bind (fun r => r.currency_id)) "USD"),
          paymentType := "subscription" }

/-- The authorized-payment object fetched from the REST endpoint. -/
structure RenewalObj where
  status : String
  preapproval_id : Option String
deriving DecidableEq

/-- `handleSubscriptionRenewal(authorizedPaymentId)`: `fetchOk` is `res.ok`
of the REST fetch, `data` its JSON body, and `preapproval` the result of the
nested preapproval fetch performed by the re-invoked `handleSubscription`
(an `Except.error` models a fetch that throws; the exception is caught by
the top-level handler, leaving the state unchanged). -/
def handleSubscriptionRenewal (w : World) (now : JDate) (freshUid : String)
    (fetchOk : Bool) (data : RenewalObj)
    (preapproval : Except Unit PreapprovalObj) : World :=
  if !fetchOk then w
  else if data.status ≠ "processed" then w
  else
    match data.preapproval_id with
    | none => w
    | some pid =>
      if pid = "" then w
      else
        match preapproval with
        | .error _ => w
        | .ok presub => handleSubscription w now freshUid pid presub

/-! ### The webhook HTTP handler (part_001 30-67; webhook.js 53-92 sends the
empty 200 response up front and then runs the same steps) -/

structure HttpResp where
  statusCode : Nat
  body : String
deriving DecidableEq

/-- The parts of the inbound HTTP request the webhook handler reads. -/
structure WebhookRequest where
  httpMethod : String
  bodyType : Option String
  bodyDataId : Option String
  queryTopic : Option String
  queryId : Option String
  xSignature : String
  xRequestId : String
deriving DecidableEq

/-- The processor-side responses the three paths may consume.
`Except.error ()` models a fetch (or JSON decode) that throws; the
exception is caught by the handler's `try`/`catch`. -/
structure MPBackend where
  payment : Except Unit PaymentObj
  preapproval : Except Unit PreapprovalObj
  renewalFetch : Except Unit (Bool × RenewalObj)

def sigEventOf (r : WebhookRequest) : SigEvent :=
  { xSignature := r.xSignature, xRequestId := r.xRequestId,
    dataId := r.bodyDataId, queryId := r.queryId }

/-- The webhook endpoint: dispatches on topic and returns the HTTP response
together with the new database/auth state. -/
def webhookHandler (secret : String) (req : WebhookRequest) (mp : MPBackend)
    (w : World) (now : JDate) (freshUid : String) : HttpResp × World :=
  if req.httpMethod ≠ "POST" then (⟨200, ""⟩, w)
  else if !signatureAccepted secret (sigEventOf req) then (⟨200, ""⟩, w)
  else
    let topic := jsOrS req.bodyType (jsOrS req.queryTopic "")
    let id := jsOrS req.bodyDataId (jsOrS req.queryId "")
    if topic = "" || id = "" then (⟨200, ""⟩, w)
    else if topic = "payment" then
      match mp.payment with
      | .error _ => (⟨200, ""⟩, w)
      | .ok p => (⟨200, ""⟩, handlePayment w now freshUid id p)
    else if topic = "preapproval" || topic = "subscription_preapproval" then
      match mp.preapproval with
      | .error _ => (⟨200, ""⟩, w)
      | .ok s => (⟨200, ""⟩, handleSubscription w now freshUid id s)
    else if topic = "subscription_authorized_payment" then
      match mp.renewalFetch with
      | .error _ => (⟨200, ""⟩, w)
      | .ok od => (⟨200, ""⟩, handleSubscriptionRenewal w now freshUid od.1 od.2 mp.preapproval)
    else (⟨200, ""⟩, w)

/-! ### Checkout creation (`api/create-preference.js` and the
create-subscription handler, part_000) -/

/-- The email shape test `/^[^\s@]+@[^\s@]+\.[^\s@]+$/`: exactly one `@`,
a nonempty local part, and a domain that is nonempty, all non-space
non-`@`, and contains a dot with at least one character on each side. -/
def okChar (c : Char) : Bool := !isJsSpace c && c != '@'

def testEmail (s : String) : Bool :=
  match s.data.splitOn '@' with
  | [loc, dom] =>
    !loc.isEmpty && loc.all okChar && !dom.isEmpty && dom.all okChar &&
    ((dom.drop 1).dropLast.contains '.')
  | _ => false

structure CatalogItem where
  title : String
  price : Rat
  months : Nat
deriving DecidableEq

/-- `CATALOG[plan]?.[duration]` (create-preference.js 17-30). -/
def CATALOG (plan duration : String) : Option CatalogItem :=
  if plan = "individual" then
    if duration = "1m" then some ⟨"BIMS Individual – 1 mes", 15, 1⟩
    else if duration = "3m" then some ⟨"BIMS Individual – 3 meses", 40, 3⟩
    else if duration = "6m" then some ⟨"BIMS Individual – 6 meses", 75, 6⟩
    else if duration = "12m" then some ⟨"BIMS Individual – 1 año", 149, 12⟩
    else none
  else if plan = "profesional" then
    if duration = "1m" then some ⟨"BIMS Profesional – 1 mes", 25, 1⟩
    else if duration = "3m" then some ⟨"BIMS Profesional – 3 meses", 67, 3⟩
    else if duration = "6m" then some ⟨"BIMS Profesional – 6 meses", 125, 6⟩
    else if duration = "12m" then some ⟨"BIMS Profesional – 1 año", 249, 12⟩
    else none
  else none

/-- `SUBSCRIPTION_PRICES[plan]` (part_000 17-20). -/
def SUBSCRIPTION_PRICES (plan : String) : Option Rat :=
  if plan = "individual" then some 15
  else if plan = "profesional" then some 25 else none

/-- The request body `{email, plan, duration}` (fields may be absent). -/
structure CheckoutBody where
  email : Option String
  plan : Option String
  duration : Option String
deriving DecidableEq

/-- Responses of the two checkout-creation endpoints. -/
inductive PrefResp where
  | empty : Nat → PrefResp
  | fail : Nat → String → PrefResp
  | success : String → Option String → PrefResp
deriving DecidableEq

/-- The processor's answer to a successful preference/preapproval creation. -/
structure MPPreference where
  init_point : String
  sandbox_init_point : Option String
deriving DecidableEq

/-- `POST /api/create-preference`.  `mp` is the processor's answer
(`none` models a create call that throws).  The second component records
whether the processor was called at all. -/
def createPreferenceHandler (method : String) (body : CheckoutBody)
    (mp : Option MPPreference) : PrefResp × Bool :=
  if method = "OPTIONS" then (.empty 200, false)
  else if method ≠ "POST" then (.fail 405 "Método no permitido", false)
  else
    let email := jsOrS body.email ""
    let plan := jsOrS body.plan ""
    let duration := jsOrS body.duration ""
    if email = "" ∨ plan = "" ∨ duration = "" then
      (.fail 400 "Se requieren: email, plan y duration", false)
    else if !testEmail email then (.fail 400 "Email inválido", false)
    else
      match CATALOG plan duration with
      | none =>
        (.fail 400 ("Combinación inválida: plan=\x22" ++ plan ++ "\x22, duration=\x22" ++ duration ++ "\x22"), false)
      | some _ =>
        match mp with
        | some pref => (.success pref.init_point pref.sandbox_init_point, true)
        | none => (.fail 500 "No se pudo crear la preferencia de pago", true)

/-- `POST /api/create-subscription` (part_000 27-88). -/
def createSubscriptionHandler (method : String) (body : CheckoutBody)
    (mp : Option MPPreference) : PrefResp × Bool :=
  if method = "OPTIONS" then (.empty 200, false)
  else if method ≠ "POST" then (.fail 405 "Método no permitido", false)
  else
    let email := jsOrS body.email ""
    let plan := jsOrS body.plan ""
    if email = "" ∨ plan = "" then (.fail 400 "Se requieren: email y plan", false)
    else if !testEmail email then (.fail 400 "Email inválido", false)
    else
      match SUBSCRIPTION_PRICES plan with
      | none => (.fail 400 ("Plan inválido: \x22" ++ plan ++ "\x22"), false)
      | some _ =>
        match mp with
        | some pref => (.success pref.init_point none, true)
        | none => (.fail 500 "No se pudo crear la suscripción", true)

/-! ### Concrete sample data (used by witnesses and counterexamples) -/

def emptyWorld : World := { auth := [], db := [] }

def sampleNow : JDate := ⟨2026, 0, 15, 0⟩

def sampleLater : JDate := ⟨2026, 0, 16, 0⟩

def sampleExp : JDate := ⟨2026, 5, 10, 0⟩

def samplePastExp : JDate := ⟨2025, 2, 1, 0⟩

def sampleOldEntry : PaymentEntry :=
  { plan := "individual", duration := some "1m", amount := 15, currency := "USD",
    date := ⟨2025, 3, 1, 0⟩, type := "onetime" }

def sampleOldSub : SubscriptionRecord :=
  { preapprovalId := "pre0", plan := "individual", status := "authorized",
    lastRenewal := ⟨2025, 3, 1, 0⟩, nextBilling := ⟨2025, 4, 1, 0⟩ }

def sampleRec : UserRecord :=
  { Email := some "a@b.com", IsActive := some true, LicenseType := some "Monthly",
    ExpirationDate := some sampleExp, MaxDevices := some 1,
    UpdatedAt := some ⟨2025, 3, 1, 0⟩, CreatedAt := some ⟨2025, 3, 1, 0⟩,
    ValidationCount := some 7, activations := some ["dev1"],
    payments := [("oldpay", sampleOldEntry)], subscription := some sampleOldSub }

def sampleWorld : World := { auth := [("a@b.com", "u1")], db := [("u1", sampleRec)] }

def lapsedWorld : World :=
  { auth := [("a@b.com", "u1")],
    db := [("u1", { sampleRec with ExpirationDate := some samplePastExp })] }

def sampleGrant : GrantInfo :=
  { licenseType := "Monthly", months := 3, maxDevices := 1, paymentId := some "pay9",
    preapprovalId := none, plan := "individual", duration := some "3m",
    amount := some 40, currency := some "USD", paymentType := "onetime" }

def approvedPayment : PaymentObj :=
  { status := "approved",
    reference := { e := some "a@b.com", p := some "individual", d := some "1m" },
    transaction_amount := some 15, currency_id := some "USD" }

def pendingPayment : PaymentObj := { approvedPayment with status := "pending" }

def authorizedPre : PreapprovalObj :=
  { status := "authorized", payer_email := some "a@b.com",
    auto_recurring := some { transaction_amount := some 25, currency_id := some "USD" } }

def pausedPre : PreapprovalObj := { authorizedPre with status := "paused" }

def rejectedRenewal : RenewalObj := { status := "rejected", preapproval_id := some "pre1" }

/-- The payment-history entry stored under `users/{uid}/payments/{pid}`. -/
def paymentEntry (w : World) (uid pid : String) : Option PaymentEntry :=
  lookupS (userRec w uid).payments pid

def goodSigEvent : SigEvent :=
  { xSignature := "ts=999,v1=" ++ hmacHex (utf8 "S") (utf8 "id:123;request-id:abc;ts:999;"),
    xRequestId := "abc", dataId := some "123", queryId := none }

def badSigEvent : SigEvent :=
  { xSignature := "ts=999,v1=00", xRequestId := "abc", dataId := some "123", queryId := none }

def noSigEvent : SigEvent :=
  { xSignature := "", xRequestId := "abc", dataId := some "123", queryId := none }

/-! ### Association-list lemmas -/

theorem lookupS_setS_self {α : Type} (l : List (String × α)) (k : String) (v : α) :
    lookupS (setS l k v) k = some v := by
  induction l with
  | nil => simp [setS, lookupS]
  | cons h t ih =>
    by_cases hk : h.1 = k
    · simp [setS, hk, lookupS]
    · simp only [setS]
      rw [if_neg hk]
      simp [lookupS, hk, ih]

theorem lookupS_setS_ne {α : Type} (l : List (String × α)) (k k' : String) (v : α)
    (h : k' ≠ k) : lookupS (setS l k v) k' = lookupS l k' := by
  induction l with
  | nil => simp [setS, lookupS, Ne.symm h]
  | cons hd t ih =>
    by_cases hk : hd.1 = k
    · simp only [setS]
      rw [if_pos hk]
      simp [lookupS, Ne.symm h, hk]
    · simp only [setS]
      rw [if_neg hk]
      by_cases hk' : hd.1 = k'
      · simp [lookupS, hk']
      · simp [lookupS, hk', ih]

/-- The record stored for the affected user after `activateLicense` has the
newly computed expiration: the grant months added (with JavaScript
`setMonth` semantics) on top of the extension base. -/
theorem activateLicense_expiration (w : World) (now : JDate) (fid email : String)
    (info : GrantInfo) :
    (userRec (activateLicense w now fid email info) (resolveUser w fid email).1).ExpirationDate
      = some (addMonths (extensionBase
          (userRec w (resolveUser w fid email).1).ExpirationDate now) info.months) := by
  unfold activateLicense
  simp only [userRec, lookupS_setS_self, Option.getD_some]
  cases info.preapprovalId <;> cases info.paymentId <;>
    cases (resolveUser w fid email).2 <;> rfl

theorem jsOrS_some_self (s : String) : jsOrS (some s) "" = s := by
  by_cases h : s = "" <;> simp [jsOrS, h]

/-- The subscription sub-record stored after an `activateLicense` call whose
grant carries a preapproval id. -/
theorem activateLicense_subscription (w : World) (now : JDate) (fid email : String)
    (info : GrantInfo) (pre : String) (h : info.preapprovalId = some pre) :
    (userRec (activateLicense w now fid email info) (resolveUser w fid email).1).subscription
      = some { preapprovalId := pre, plan := info.plan, status := "authorized",
               lastRenewal := now,
               nextBilling := addMonths (extensionBase
                 (userRec w (resolveUser w fid email).1).ExpirationDate now) info.months } := by
  unfold activateLicense
  simp only [userRec, lookupS_setS_self, Option.getD_some, h]

/-- C1: for a grant of `info.months` months, the new expiration stored for
the affected user extends the stored expiration when it is strictly in the
future, and extends `now` otherwise (no stored expiration, or one at or
before `now`); in both cases by a raw calendar-month increment. -/
theorem license_extension_base (w : World) (now : JDate) (fid email : String)
    (info : GrantInfo) :
    (∀ e, (userRec w (resolveUser w fid email).1).ExpirationDate = some e →
       dLt now e = true →
       (userRec (activateLicense w now fid email info) (resolveUser w fid email).1).ExpirationDate
         = some (addMonths e info.months))
  ∧ (Option.all (fun e => !dLt now e)
        (userRec w (resolveUser w fid email).1).ExpirationDate = true →
       (userRec (activateLicense w now fid email info) (resolveUser w fid email).1).ExpirationDate
         = some (addMonths now info.months)) := by
  constructor
  · intro e he hlt
    rw [activateLicense_expiration, he]
    simp [extensionBase, hlt]
  · intro hall
    rw [activateLicense_expiration]
    cases hexp : (userRec w (resolveUser w fid email).1).ExpirationDate with
    | none => simp [extensionBase]
    | some e =>
      rw [hexp] at hall
      simp only [Option.all] at hall
      have hlt : dLt now e = false := by simpa using hall
      simp [extensionBase, hlt]

theorem license_extension_base_witness :
    (userRec (activateLicense sampleWorld sampleNow "f1" "a@b.com" sampleGrant) "u1").ExpirationDate
       = some (addMonths sampleExp sampleGrant.months)
  ∧ (userRec (activateLicense lapsedWorld sampleNow "f1" "a@b.com" sampleGrant) "u1").ExpirationDate
       = some (addMonths sampleNow sampleGrant.months) := by
  constructor
  · exact (license_extension_base sampleWorld sampleNow "f1" "a@b.com" sampleGrant).1
      sampleExp (by decide) (by decide)
  · exact (license_extension_base lapsedWorld sampleNow "f1" "a@b.com" sampleGrant).2 (by decide)

/-- C4: an event whose fetched processor object lacks the required status
(payment not "approved", preapproval not "authorized", renewal not
"processed") is a no-op: the world — users, license fields, payment
history, subscription state — is unchanged. -/
theorem handlers_skip_wrong_status :
    (∀ (w : World) (now : JDate) (fid pid : String) (p : PaymentObj),
       p.status ≠ "approved" → handlePayment w now fid pid p = w)
  ∧ (∀ (w : World) (now : JDate) (fid pid : String) (s : PreapprovalObj),
       s.status ≠ "authorized" → handleSubscription w now fid pid s = w)
  ∧ (∀ (w : World) (now : JDate) (fid : String) (ok : Bool) (d : RenewalObj)
       (pre : Except Unit PreapprovalObj),
       d.status ≠ "processed" → handleSubscriptionRenewal w now fid ok d pre = w) := by
  refine ⟨?_, ?_, ?_⟩
  · intro w now fid pid p h
    simp [handlePayment, h]
  · intro w now fid pid s h
    simp [handleSubscription, h]
  · intro w now fid ok d pre h
    unfold handleSubscriptionRenewal
    cases ok <;> simp [h]

theorem handlers_skip_wrong_status_witness :
    handlePayment sampleWorld sampleNow "f1" "pay9" pendingPayment = sampleWorld
  ∧ handleSubscription sampleWorld sampleNow "f1" "pre1" pausedPre = sampleWorld
  ∧ handleSubscriptionRenewal sampleWorld sampleNow "f1" true rejectedRenewal
      (Except.ok authorizedPre) = sampleWorld := by
  refine ⟨?_, ?_, ?_⟩
  · exact handlers_skip_wrong_status.1 sampleWorld sampleNow "f1" "pay9" pendingPayment (by decide)
  · exact handlers_skip_wrong_status.2.1 sampleWorld sampleNow "f1" "pre1" pausedPre (by decide)
  · exact handlers_skip_wrong_status.2.2 sampleWorld sampleNow "f1" true rejectedRenewal
      (Except.ok authorizedPre) (by decide)

/-- C5: the grant-descriptor mapping used by the one-time payment path:
1m/3m/6m map to tier "Monthly" and 12m to "Annual"; an unknown duration
defaults to "Monthly" with 1 month; plan individual maps to 1 device,
profesional to 3, and an unknown plan to 1. -/
theorem grant_descriptor_mapping :
    (licenseOf "1m" = "Monthly" ∧ licenseOf "3m" = "Monthly" ∧ licenseOf "6m" = "Monthly"
      ∧ licenseOf "12m" = "Annual"
      ∧ monthsOf "1m" = 1 ∧ monthsOf "3m" = 3 ∧ monthsOf "6m" = 6 ∧ monthsOf "12m" = 12)
  ∧ (∀ d, d ≠ "1m" → d ≠ "3m" → d ≠ "6m" → d ≠ "12m" →
       licenseOf d = "Monthly" ∧ monthsOf d = 1)
  ∧ (devicesOf "individual" = 1 ∧ devicesOf "profesional" = 3)
  ∧ (∀ p, p ≠ "individual" → p ≠ "profesional" → devicesOf p = 1) := by
  refine ⟨by decide, ?_, by decide, ?_⟩
  · intro d h1 h3 h6 h12
    constructor <;>
      simp [licenseOf, monthsOf, DURATION_LICENSE, DURATION_MONTHS, h1, h3, h6, h12]
  · intro p hi hp
    simp [devicesOf, PLAN_MAX_DEVICES, hi, hp]

theorem grant_descriptor_mapping_witness :
    licenseOf "9m" = "Monthly" ∧ monthsOf "9m" = 1 ∧ devicesOf "empresa" = 1 := by
  refine ⟨?_, ?_, ?_⟩
  · exact (grant_descriptor_mapping.2.1 "9m" (by decide) (by decide) (by decide) (by decide)).1
  · exact (grant_descriptor_mapping.2.1 "9m" (by decide) (by decide) (by decide) (by decide)).2
  · exact grant_descriptor_mapping.2.2.2 "empresa" (by decide) (by decide)

/-- C6: the subscription-authorization path infers the plan from the
recurring transaction amount: profesional iff the amount is at least the
profesional subscription price 25, individual otherwise; a missing amount
counts as 0 and yields individual.  The inferred plan is what gets stored
in the subscription sub-record. -/
theorem subscription_plan_inference :
    (∀ a : Rat, inferPlan a = "profesional" ↔ 25 ≤ a)
  ∧ (∀ a : Rat, inferPlan a = "individual" ↔ ¬(25 ≤ a))
  ∧ (∀ p : PreapprovalObj, p.auto_recurring = none →
       subscriptionAmount p = 0 ∧ inferPlan (subscriptionAmount p) = "individual")
  ∧ (∀ (p : PreapprovalObj) (r : AutoRecurring), p.auto_recurring = some r →
       r.transaction_amount = none →
       subscriptionAmount p = 0 ∧ inferPlan (subscriptionAmount p) = "individual")
  ∧ (∀ (w : World) (now : JDate) (fid pid : String) (p : PreapprovalObj) (em : String),
       p.status = "authorized" → p.payer_email = some em → em ≠ "" →
       Option.map SubscriptionRecord.plan
         (userRec (handleSubscription w now fid pid p) (resolveUser w fid em).1).subscription
         = some (inferPlan (subscriptionAmount p))) := by
  refine ⟨?_, ?_, ?_, ?_, ?_⟩
  · intro a
    constructor
    · intro h
      by_contra hc
      simp [inferPlan, hc] at h
    · intro h
      simp [inferPlan, h]
  · intro a
    constructor
    · intro h
      intro hc
      simp [inferPlan, hc] at h
    · intro h
      simp [inferPlan, h]
  · intro p h
    simp [subscriptionAmount, h, inferPlan]
  · intro p r h hr
    simp [subscriptionAmount, h, hr, inferPlan]
  · intro w now fid pid p em hs he hne
    unfold handleSubscription
    rw [hs, he, jsOrS_some_self]
    simp only [ne_eq, not_true_eq_false, if_false, hne, if_neg]
    rw [activateLicense_subscription _ _ _ _ _ pid rfl]
    rfl

theorem subscription_plan_inference_witness :
    inferPlan 25 = "profesional"
  ∧ inferPlan 24 = "individual"
  ∧ Option.map SubscriptionRecord.plan
      (userRec (handleSubscription sampleWorld sampleNow "f1" "pre1" authorizedPre) "u1").subscription
      = some (inferPlan (subscriptionAmount authorizedPre)) := by
  refine ⟨?_, ?_, ?_⟩
  · exact (subscription_plan_inference.1 25).mpr (by norm_num)
  · exact (subscription_plan_inference.2.1 24).mpr (by norm_num)
  · exact subscription_plan_inference.2.2.2.2 sampleWorld sampleNow "f1" "pre1" authorizedPre
      "a@b.com" rfl rfl (by decide)

/-- C9: the webhook endpoint answers every inbound request with an empty
HTTP 200, whatever happens internally — invalid signature, missing topic or
id, unknown topic, a processor fetch that fails or throws, or any processing
outcome. -/
theorem webhook_always_200 (secret : String) (req : WebhookRequest) (mp : MPBackend)
    (w : World) (now : JDate) (fid : String) :
    (webhookHandler secret req mp w now fid).1 = ⟨200, ""⟩ := by
  unfold webhookHandler
  dsimp only
  repeat' split
  all_goals rfl

/-- C2: delivering the same approved payment id twice extends the
expiration twice.  First delivery of `pay1` at `sampleNow` (2026-01-15)
gives expiration 2026-02-15; redelivering the identical event moves it to
2026-03-15 — the stored expiration after the second processing differs from
the one after the first, so the required idempotence does not hold. -/
theorem double_delivery_extends_twice :
    (userRec (handlePayment emptyWorld sampleNow "u1" "pay1" approvedPayment) "u1").ExpirationDate
      = some ⟨2026, 1, 15, 0⟩
  ∧ (userRec (handlePayment (handlePayment emptyWorld sampleNow "u1" "pay1" approvedPayment)
        sampleNow "u1" "pay1" approvedPayment) "u1").ExpirationDate
      = some ⟨2026, 2, 15, 0⟩
  ∧ (userRec (handlePayment (handlePayment emptyWorld sampleNow "u1" "pay1" approvedPayment)
        sampleNow "u1" "pay1" approvedPayment) "u1").ExpirationDate
      ≠ (userRec (handlePayment emptyWorld sampleNow "u1" "pay1" approvedPayment) "u1").ExpirationDate := by
  refine ⟨by decide, by decide, by decide⟩

/-- C7: a payment-history entry is not immutable: redelivering the same
payment id one day later rewrites the entry (`set` overwrites it), changing
its `date` field from the first processing time to the second. -/
theorem payment_entry_overwritten_on_redelivery :
    Option.map PaymentEntry.date
      (paymentEntry (handlePayment emptyWorld sampleNow "u1" "pay1" approvedPayment) "u1" "pay1")
      = some sampleNow
  ∧ Option.map PaymentEntry.date
      (paymentEntry (handlePayment (handlePayment emptyWorld sampleNow "u1" "pay1" approvedPayment)
        sampleLater "u1" "pay1" approvedPayment) "u1" "pay1")
      = some sampleLater
  ∧ sampleLater ≠ sampleNow := by
  refine ⟨by decide, by decide, by decide⟩

/-- C10: applying a grant to an already-existing user leaves CreatedAt,
ValidationCount, the device-activation set and the payment-history entries
under other payment ids unchanged, keeps the subscription sub-record when no
preapproval id is delivered, writes exactly Email, IsActive, LicenseType,
ExpirationDate, MaxDevices and UpdatedAt (plus the delivered payment entry
and subscription sub-record when their ids are present), and touches no
other user and no auth entry. -/
theorem activateLicense_frame (w : World) (now : JDate) (fid email : String)
    (info : GrantInfo) (uid : String) (h : lookupS w.auth email = some uid) :
    ((userRec (activateLicense w now fid email info) uid).CreatedAt
       = (userRec w uid).CreatedAt)
  ∧ ((userRec (activateLicense w now fid email info) uid).ValidationCount
       = (userRec w uid).ValidationCount)
  ∧ ((userRec (activateLicense w now fid email info) uid).activations
       = (userRec w uid).activations)
  ∧ (∀ pid, some pid ≠ info.paymentId →
       lookupS (userRec (activateLicense w now fid email info) uid).payments pid
         = lookupS (userRec w uid).payments pid)
  ∧ (info.preapprovalId = none →
       (userRec (activateLicense w now fid email info) uid).subscription
         = (userRec w uid).subscription)
  ∧ ((userRec (activateLicense w now fid email info) uid).Email = some email)
  ∧ ((userRec (activateLicense w now fid email info) uid).IsActive = some true)
  ∧ ((userRec (activateLicense w now fid email info) uid).LicenseType
       = some info.licenseType)
  ∧ ((userRec (activateLicense w now fid email info) uid).MaxDevices
       = some info.maxDevices)
  ∧ ((userRec (activateLicense w now fid email info) uid).UpdatedAt = some now)
  ∧ ((userRec (activateLicense w now fid email info) uid).ExpirationDate
       = some (addMonths (extensionBase (userRec w uid).ExpirationDate now) info.months))
  ∧ (∀ u, u ≠ uid →
       lookupS (activateLicense w now fid email info).db u = lookupS w.db u)
  ∧ ((activateLicense w now fid email info).auth = w.auth) := by
  have hru : resolveUser w fid email = (uid, false) := by
    simp [resolveUser, h]
  unfold activateLicense
  rw [hru]
  simp only [userRec, lookupS_setS_self, Option.getD_some]
  refine ⟨?_, ?_, ?_, ?_, ?_, ?_, ?_, ?_, ?_, ?_, ?_, ?_, ?_⟩
  · cases info.preapprovalId <;> cases info.paymentId <;> rfl
  · cases info.preapprovalId <;> cases info.paymentId <;> rfl
  · cases info.preapprovalId <;> cases info.paymentId <;> rfl
  · intro pid hpid
    cases hq : info.preapprovalId <;> cases hp : info.paymentId <;>
      simp only [] <;>
      first
      | rfl
      | (rw [hp] at hpid
         exact lookupS_setS_ne _ _ _ _ (by intro hc; exact hpid (by rw [hc])))
  · intro hq
    rw [hq]
    cases info.paymentId <;> rfl
  · cases info.preapprovalId <;> cases info.paymentId <;> rfl
  · cases info.preapprovalId <;> cases info.paymentId <;> rfl
  · cases info.preapprovalId <;> cases info.paymentId <;> rfl
  · cases info.preapprovalId <;> cases info.paymentId <;> rfl
  · cases info.preapprovalId <;> cases info.paymentId <;> rfl
  · cases info.preapprovalId <;> cases info.paymentId <;> rfl
  · intro u hu
    exact lookupS_setS_ne _ _ _ _ hu
  · rfl

theorem activateLicense_frame_witness :
    ((userRec (activateLicense sampleWorld sampleNow "f1" "a@b.com" sampleGrant) "u1").CreatedAt
       = (userRec sampleWorld "u1").CreatedAt)
  ∧ ((userRec (activateLicense sampleWorld sampleNow "f1" "a@b.com" sampleGrant) "u1").ValidationCount
       = (userRec sampleWorld "u1").ValidationCount)
  ∧ ((userRec (activateLicense sampleWorld sampleNow "f1" "a@b.com" sampleGrant) "u1").activations
       = (userRec sampleWorld "u1").activations)
  ∧ (lookupS (userRec (activateLicense sampleWorld sampleNow "f1" "a@b.com" sampleGrant) "u1").payments "oldpay"
       = lookupS (userRec sampleWorld "u1").payments "oldpay")
  ∧ ((userRec (activateLicense sampleWorld sampleNow "f1" "a@b.com" sampleGrant) "u1").subscription
       = (userRec sampleWorld "u1").subscription)
  ∧ (lookupS (activateLicense sampleWorld sampleNow "f1" "a@b.com" sampleGrant).db "u2"
       = lookupS sampleWorld.db "u2") := by
  have H := activateLicense_frame sampleWorld sampleNow "f1" "a@b.com" sampleGrant "u1" (by decide)
  obtain ⟨h1, h2, h3, h4, h5, -, -, -, -, -, -, h12, -⟩ := H
  exact ⟨h1, h2, h3, h4 "oldpay" (by decide), h5 rfl, h12 "u2" (by decide)⟩

/-- C3: with a secret configured, a header whose `v1` equals the
HMAC-SHA256 of the manifest `id:<id>;request-id:<rid>;ts:<ts>;` under the
secret verifies; a `v1` whose decoded bytes differ anywhere from that HMAC
fails; an absent `x-signature` header, or no configured secret, short-
circuits to accepted. -/
theorem signature_verification_spec :
    (∀ (e : SigEvent) (secret ts hash : String),
       secret ≠ "" → e.xSignature ≠ "" →
       lookupLast (parsePairs e.xSignature) "ts" = some ts →
       lookupLast (parsePairs e.xSignature) "v1" = some hash →
       hash = hmacHex (utf8 secret)
         (utf8 ("id:" ++ eventId e ++ ";request-id:" ++ e.xRequestId ++ ";ts:" ++ ts ++ ";")) →
       signatureAccepted secret e = true)
  ∧ (∀ (e : SigEvent) (secret ts hash : String),
       secret ≠ "" → e.xSignature ≠ "" →
       lookupLast (parsePairs e.xSignature) "ts" = some ts →
       lookupLast (parsePairs e.xSignature) "v1" = some hash →
       decodeHex hash ≠ decodeHex (hmacHex (utf8 secret)
         (utf8 ("id:" ++ eventId e ++ ";request-id:" ++ e.xRequestId ++ ";ts:" ++ ts ++ ";"))) →
       signatureAccepted secret e = false)
  ∧ (∀ (e : SigEvent) (secret : String), e.xSignature = "" → verifySignature e secret = true)
  ∧ (∀ e : SigEvent, signatureAccepted "" e = true) := by
  refine ⟨?_, ?_, ?_, ?_⟩
  · intro e secret ts hash hsec hx hts hv1 hh
    unfold signatureAccepted
    rw [if_neg hsec]
    unfold verifySignature
    rw [if_neg hx]
    simp only [hts, hv1, jsOrS_some_self]
    subst hh
    simp
  · intro e secret ts hash hsec hx hts hv1 hd
    unfold signatureAccepted
    rw [if_neg hsec]
    unfold verifySignature
    rw [if_neg hx]
    simp only [hts, hv1, jsOrS_some_self]
    by_cases hlen : (decodeHex hash).length
        = (decodeHex (hmacHex (utf8 secret)
            (utf8 ("id:" ++ eventId e ++ ";request-id:" ++ e.xRequestId ++ ";ts:" ++ ts ++ ";")))).length
    · rw [if_pos hlen]
      exact beq_eq_false_iff_ne.mpr hd
    · rw [if_neg hlen]
  · intro e secret h
    unfold verifySignature
    rw [if_pos h]
  · intro e
    rfl

theorem signature_verification_witness :
    signatureAccepted "S" goodSigEvent = true
  ∧ signatureAccepted "S" badSigEvent = false
  ∧ verifySignature noSigEvent "S" = true
  ∧ signatureAccepted "" badSigEvent = true := by
  refine ⟨?_, ?_, ?_, ?_⟩
  · exact signature_verification_spec.1 goodSigEvent "S" "999"
      (hmacHex (utf8 "S") (utf8 "id:123;request-id:abc;ts:999;"))
      (by decide) (by decide) (by decide) (by decide) (by decide)
  · exact signature_verification_spec.2.1 badSigEvent "S" "999" "00"
      (by decide) (by decide) (by decide) (by decide) (by decide)
  · exact signature_verification_spec.2.2.1 noSigEvent "S" rfl
  · exact signature_verification_spec.2.2.2 badSigEvent

/-- C8: checkout creation validates in order — missing fields, then email
shape, then catalog membership — answering 400 with an error message and
never calling the processor; a processor-side failure answers 500 with a
generic message; a non-POST, non-OPTIONS method answers 405.  Both the
one-time (preference) and subscription endpoints behave this way. -/
theorem checkout_validation_spec :
    (∀ (b : CheckoutBody) (mp : Option MPPreference),
       (jsOrS b.email "" = "" ∨ jsOrS b.plan "" = "" ∨ jsOrS b.duration "" = "") →
       createPreferenceHandler "POST" b mp
         = (.fail 400 "Se requieren: email, plan y duration", false))
  ∧ (∀ (b : CheckoutBody) (mp : Option MPPreference),
       jsOrS b.email "" ≠ "" → jsOrS b.plan "" ≠ "" → jsOrS b.duration "" ≠ "" →
       testEmail (jsOrS b.email "") = false →
       createPreferenceHandler "POST" b mp = (.fail 400 "Email inválido", false))
  ∧ (∀ (b : CheckoutBody) (mp : Option MPPreference),
       jsOrS b.email "" ≠ "" → jsOrS b.plan "" ≠ "" → jsOrS b.duration "" ≠ "" →
       testEmail (jsOrS b.email "") = true →
       CATALOG (jsOrS b.plan "") (jsOrS b.duration "") = none →
       createPreferenceHandler "POST" b mp
         = (.fail 400 ("Combinación inválida: plan=\x22" ++ jsOrS b.plan ""
             ++ "\x22, duration=\x22" ++ jsOrS b.duration "" ++ "\x22"), false))
  ∧ (∀ (b : CheckoutBody) (item : CatalogItem),
       jsOrS b.email "" ≠ "" → jsOrS b.plan "" ≠ "" → jsOrS b.duration "" ≠ "" →
       testEmail (jsOrS b.email "") = true →
       CATALOG (jsOrS b.plan "") (jsOrS b.duration "") = some item →
       createPreferenceHandler "POST" b none
         = (.fail 500 "No se pudo crear la preferencia de pago", true))
  ∧ (∀ (m : String) (b : CheckoutBody) (mp : Option MPPreference),
       m ≠ "POST" → m ≠ "OPTIONS" →
       createPreferenceHandler m b mp = (.fail 405 "Método no permitido", false))
  ∧ (∀ (b : CheckoutBody) (mp : Option MPPreference),
       (jsOrS b.email "" = "" ∨ jsOrS b.plan "" = "") →
       createSubscriptionHandler "POST" b mp
         = (.fail 400 "Se requieren: email y plan", false))
  ∧ (∀ (b : CheckoutBody) (mp : Option MPPreference),
       jsOrS b.email "" ≠ "" → jsOrS b.plan "" ≠ "" →
       testEmail (jsOrS b.email "") = false →
       createSubscriptionHandler "POST" b mp = (.fail 400 "Email inválido", false))
  ∧ (∀ (b : CheckoutBody) (mp : Option MPPreference),
       jsOrS b.email "" ≠ "" → jsOrS b.plan "" ≠ "" →
       testEmail (jsOrS b.email "") = true →
       SUBSCRIPTION_PRICES (jsOrS b.plan "") = none →
       createSubscriptionHandler "POST" b mp
         = (.fail 400 ("Plan inválido: \x22" ++ jsOrS b.plan "" ++ "\x22"), false))
  ∧ (∀ (b : CheckoutBody) (price : Rat),
       jsOrS b.email "" ≠ "" → jsOrS b.plan "" ≠ "" →
       testEmail (jsOrS b.email "") = true →
       SUBSCRIPTION_PRICES (jsOrS b.plan "") = some price →
       createSubscriptionHandler "POST" b none
         = (.fail 500 "No se pudo crear la suscripción", true))
  ∧ (∀ (m : String) (b : CheckoutBody) (mp : Option MPPreference),
       m ≠ "POST" → m ≠ "OPTIONS" →
       createSubscriptionHandler m b mp = (.fail 405 "Método no permitido", false)) := by
  refine ⟨?_, ?_, ?_, ?_, ?_, ?_, ?_, ?_, ?_, ?_⟩
  · intro b mp h
    unfold createPreferenceHandler
    rw [if_neg (by decide), if_neg (by decide)]
    rcases h with h | h | h <;> simp [h]
  · intro b mp h1 h2 h3 hmail
    unfold createPreferenceHandler
    rw [if_neg (by decide), if_neg (by decide)]
    simp [h1, h2, h3, hmail]
  · intro b mp h1 h2 h3 hmail hcat
    unfold createPreferenceHandler
    rw [if_neg (by decide), if_neg (by decide)]
    simp [h1, h2, h3, hmail, hcat]
  · intro b item h1 h2 h3 hmail hcat
    unfold createPreferenceHandler
    rw [if_neg (by decide), if_neg (by decide)]
    simp [h1, h2, h3, hmail, hcat]
  · intro m b mp h1 h2
    unfold createPreferenceHandler
    rw [if_neg h2, if_pos h1]
  · intro b mp h
    unfold createSubscriptionHandler
    rw [if_neg (by decide), if_neg (by decide)]
    rcases h with h | h <;> simp [h]
  · intro b mp h1 h2 hmail
    unfold createSubscriptionHandler
    rw [if_neg (by decide), if_neg (by decide)]
    simp [h1, h2, hmail]
  · intro b mp h1 h2 hmail hcat
    unfold createSubscriptionHandler
    rw [if_neg (by decide), if_neg (by decide)]
    simp [h1, h2, hmail, hcat]
  · intro b price h1 h2 hmail hcat
    unfold createSubscriptionHandler
    rw [if_neg (by decide), if_neg (by decide)]
    simp [h1, h2, hmail, hcat]
  · intro m b mp h1 h2
    unfold createSubscriptionHandler
    rw [if_neg h2, if_pos h1]

theorem checkout_validation_witness :
    createPreferenceHandler "POST" ⟨none, some "individual", some "1m"⟩ none
      = (.fail 400 "Se requieren: email, plan y duration", false)
  ∧ createPreferenceHandler "POST" ⟨some "not-an-email", some "individual", some "1m"⟩ none
      = (.fail 400 "Email inválido", false)
  ∧ createPreferenceHandler "POST" ⟨some "a@b.com", some "individual", some "2m"⟩ none
      = (.fail 400 "Combinación inválida: plan=\x22individual\x22, duration=\x222m\x22", false)
  ∧ createPreferenceHandler "POST" ⟨some "a@b.com", some "individual", some "3m"⟩ none
      = (.fail 500 "No se pudo crear la preferencia de pago", true)
  ∧ createPreferenceHandler "GET" ⟨none, none, none⟩ none
      = (.fail 405 "Método no permitido", false)
  ∧ createSubscriptionHandler "POST" ⟨some "a@b.com", some "equipo", none⟩ none
      = (.fail 400 "Plan inválido: \x22equipo\x22", false)
  ∧ createSubscriptionHandler "POST" ⟨some "a@b.com", some "profesional", none⟩ none
      = (.fail 500 "No se pudo crear la suscripción", true) := by
  obtain ⟨p1, p2, p3, p4, -, -, -, s3, s4, -⟩ := checkout_validation_spec
  refine ⟨?_, ?_, ?_, ?_, ?_, ?_, ?_⟩
  · exact p1 ⟨none, some "individual", some "1m"⟩ none (Or.inl (by decide))
  · exact p2 ⟨some "not-an-email", some "individual", some "1m"⟩ none
      (by decide) (by decide) (by decide) (by decide)
  · exact p3 ⟨some "a@b.com", some "individual", some "2m"⟩ none
      (by decide) (by decide) (by decide) (by decide) (by decide)
  · exact p4 ⟨some "a@b.com", some "individual", some "3m"⟩
      ⟨"BIMS Individual – 3 meses", 40, 3⟩
      (by decide) (by decide) (by decide) (by decide) (by decide)
  · exact checkout_validation_spec.2.2.2.2.1 "GET" ⟨none, none, none⟩ none
      (by decide) (by decide)
  · exact s3 ⟨some "a@b.com", some "equipo", none⟩ none
      (by decide) (by decide) (by decide) (by decide)
  · exact s4 ⟨some "a@b.com", some "profesional", none⟩ 25
      (by decide) (by decide) (by decide) (by decide)

end Bims
